import Mathlib

/-!
Shallow embedding of the app-pinterest-server backend (Express + Mongoose
controllers) and proofs about its controllers.

Conventions of the embedding:
* JavaScript numbers are modelled as rationals (`ℚ`); `NaN` is modelled
  explicitly by the `Jsv.nan` constructor.  IEEE infinities and rounding are
  outside the scope of the verified claims, so division by zero is folded
  into `Jsv.nan`.
* A JavaScript value that can be a number, a string, `NaN` or `undefined`
  is modelled by the sum type `Jsv`.
* `Number(s)` coercion of a string is modelled for non-negative decimal
  integer literals (`jsStringToNat`); every other string coerces to `NaN`
  (`none`), which is the behaviour the verified claims exercise.
* MongoDB collections are modelled as lists of documents; `findOne` is
  `List.find?`, `deleteOne` removes the first matching document,
  `create` appends.
* `bcrypt.hash` / `bcrypt.compare` and `jwt.verify` are external oracles,
  passed as function parameters (`hash`, `compare`, `verify`).
-/

/-- Model of a dynamically typed JavaScript value as it flows through the
`createPin` arithmetic: a (rational) number, a string, `NaN`, or
`undefined`. -/
inductive Jsv where
  | num (q : ℚ)
  | str (s : String)
  | nan
  | undef
deriving DecidableEq, Repr

/-- Accumulator loop for parsing a string of decimal digits. -/
def digitsToNatAux : List Char → ℕ → Option ℕ
  | [], acc => some acc
  | c :: cs, acc =>
      if c.isDigit then digitsToNatAux cs (acc * 10 + (c.toNat - 48)) else none

/-- `Number(s)` for a non-negative decimal integer literal; `none` models
`NaN` (any string that is not a plain digit string). -/
def jsStringToNat (s : String) : Option ℕ :=
  if s.isEmpty then none else digitsToNatAux s.toList 0

/-- Numeric coercion of a `Jsv`, as JavaScript arithmetic applies it;
`none` models `NaN`. -/
def jsToNumber : Jsv → Option ℚ
  | Jsv.num q => some q
  | Jsv.str s => (jsStringToNat s).map (fun n => (n : ℚ))
  | Jsv.nan => none
  | Jsv.undef => none

/-- JavaScript division `a / b` with numeric coercion; any non-numeric
operand (and division by zero, not exercised by the claims) yields `NaN`. -/
def jsDiv (a b : Jsv) : Jsv :=
  match jsToNumber a, jsToNumber b with
  | some x, some y => if y = 0 then Jsv.nan else Jsv.num (x / y)
  | _, _ => Jsv.nan

/-- JavaScript comparison `a > b`: `false` whenever either side coerces to
`NaN`. -/
def jsGt (a b : Jsv) : Bool :=
  match jsToNumber a, jsToNumber b with
  | some x, some y => decide (y < x)
  | _, _ => false

/-- A missing member access on a split result (`parts[1]` when absent) is
`undefined`. -/
def optStrToJsv : Option String → Jsv
  | none => Jsv.undef
  | some s => Jsv.str s

/-- Accumulator loop for `jsSplit`: `acc` holds the current field reversed. -/
def jsSplitAux (sep : Char) : List Char → List Char → List String
  | [], acc => [String.mk acc.reverse]
  | c :: cs, acc =>
      if c = sep then String.mk acc.reverse :: jsSplitAux sep cs []
      else jsSplitAux sep cs (c :: acc)

/-- JavaScript `s.split(sep)` for a single-character separator: splits into
the (always non-empty) list of fields between occurrences of `sep`. -/
def jsSplit (s : String) (sep : Char) : List String :=
  jsSplitAux sep s.toList []

example : jsSplit "1:2" ':' = ["1", "2"] := by decide
example : jsSplit "original" ':' = ["original"] := by decide
example : jsSplit "16:9:extra" ':' = ["16", "9", "extra"] := by decide

/-- `metadata.width < metadata.height ? 'portrait' : 'landscape'` from
`createPin` (pin.controller.js). -/
def originalOrientation (w h : ℚ) : String :=
  if w < h then "portrait" else "landscape"

/-- `metadata.width / metadata.height` from `createPin`
(the `originalAspectRatio` variable of the source). -/
def originalAspect (w h : ℚ) : ℚ := w / h

/-- Errors the JavaScript runtime throws inside `createPin`; caught by the
controller's outer `catch`. -/
inductive JsError where
  | typeError
deriving DecidableEq, Repr

/-- The `clientAspectRatio` computation of `createPin`: when
`parsedCanvasOptions.size !== 'original'`, split the size string on `:` and
divide the two parts (throwing a `TypeError` when `size` is `undefined`);
otherwise reuse the orientation string itself when the requested orientation
matches the source orientation, else `1 / originalAspectRatio`. -/
def computeClientAspect (size orientation : Option String) (mw mh : ℚ) :
    Except JsError Jsv :=
  if size ≠ some "original" then
    match size with
    | none => Except.error JsError.typeError
    | some s =>
        Except.ok (jsDiv (optStrToJsv ((jsSplit s ':')[0]?))
                         (optStrToJsv ((jsSplit s ':')[1]?)))
  else
    if orientation = some (originalOrientation mw mh) then
      Except.ok (Jsv.str (originalOrientation mw mh))
    else
      Except.ok (Jsv.num (1 / originalAspect mw mh))

/-- The `croppingStrategy` computation of `createPin`: pad-resize when an
explicit size is requested and the original aspect ratio exceeds the client
one, or when the size is `original`, the source is landscape and the
requested orientation is portrait. -/
def croppingStrategy (size orientation : Option String) (mw mh : ℚ)
    (car : Jsv) : String :=
  if size ≠ some "original" then
    if jsGt (Jsv.num (originalAspect mw mh)) car then ",cm-pad_resize" else ""
  else
    if originalOrientation mw mh = "landscape" ∧ orientation = some "portrait"
    then ",cm-pad_resize" else ""

/-- The transform parameters `createPin` computes before calling ImageKit. -/
structure TransformResult where
  clientAspect : Jsv
  width : ℚ
  height : Jsv
  crop : String
deriving DecidableEq, Repr

/-- The image-transform parameter computation of `createPin`: client aspect
ratio, target width (`metadata.width`), target height
(`metadata.width / clientAspectRatio` in JavaScript arithmetic) and the
cropping strategy. -/
def computeTransform (size orientation : Option String) (mw mh : ℚ) :
    Except JsError TransformResult :=
  match computeClientAspect size orientation mw mh with
  | Except.error e => Except.error e
  | Except.ok car =>
      Except.ok { clientAspect := car
                , width := mw
                , height := jsDiv (Jsv.num mw) car
                , crop := croppingStrategy size orientation mw mh car }

instance {ε α : Type} [DecidableEq ε] [DecidableEq α] :
    DecidableEq (Except ε α) := fun a b =>
  match a, b with
  | Except.ok x, Except.ok y => decidable_of_iff (x = y) (by simp)
  | Except.ok _, Except.error _ => isFalse (by simp)
  | Except.error _, Except.ok _ => isFalse (by simp)
  | Except.error x, Except.error y => decidable_of_iff (x = y) (by simp)

example :
    computeTransform (some "original") (some "portrait") 2 3 =
      Except.ok { clientAspect := Jsv.str "portrait"
                , width := 2
                , height := Jsv.nan
                , crop := "" } := by decide

example :
    computeTransform (some "original") (some "portrait") 3 2 =
      Except.ok { clientAspect := Jsv.num (2 / 3)
                , width := 3
                , height := Jsv.num (9 / 2)
                , crop := ",cm-pad_resize" } := by with_unfolding_all decide

example :
    computeTransform (some "1:2") (some "portrait") 3 2 =
      Except.ok { clientAspect := Jsv.num (1 / 2)
                , width := 3
                , height := Jsv.num 6
                , crop := ",cm-pad_resize" } := by with_unfolding_all decide

example : computeTransform none (some "portrait") 3 2 =
    Except.error JsError.typeError := by decide

lemma computeClientAspect_original (orientation : Option String) (mw mh : ℚ) :
    computeClientAspect (some "original") orientation mw mh =
      (if orientation = some (originalOrientation mw mh)
       then Except.ok (Jsv.str (originalOrientation mw mh))
       else Except.ok (Jsv.num (1 / originalAspect mw mh))) := by
  simp [computeClientAspect]

lemma computeClientAspect_explicit (s : String) (hs : s ≠ "original")
    (orientation : Option String) (mw mh : ℚ) :
    computeClientAspect (some s) orientation mw mh =
      Except.ok (jsDiv (optStrToJsv ((jsSplit s ':')[0]?))
                       (optStrToJsv ((jsSplit s ':')[1]?))) := by
  simp [computeClientAspect, hs]

lemma computeClientAspect_undefined (orientation : Option String) (mw mh : ℚ) :
    computeClientAspect none orientation mw mh =
      Except.error JsError.typeError := by
  simp [computeClientAspect]

lemma croppingStrategy_original (orientation : Option String) (mw mh : ℚ)
    (car : Jsv) :
    croppingStrategy (some "original") orientation mw mh car =
      (if originalOrientation mw mh = "landscape" ∧ orientation = some "portrait"
       then ",cm-pad_resize" else "") := by
  simp [croppingStrategy]

lemma croppingStrategy_explicit (s : String) (hs : s ≠ "original")
    (orientation : Option String) (mw mh : ℚ) (car : Jsv) :
    croppingStrategy (some s) orientation mw mh car =
      (if jsGt (Jsv.num (originalAspect mw mh)) car
       then ",cm-pad_resize" else "") := by
  simp [croppingStrategy, hs]

lemma jsToNumber_orientation (mw mh : ℚ) :
    jsToNumber (Jsv.str (originalOrientation mw mh)) = none := by
  unfold originalOrientation
  split <;> decide

lemma jsDiv_orientation (mw mh : ℚ) (x : Jsv) :
    jsDiv x (Jsv.str (originalOrientation mw mh)) = Jsv.nan := by
  unfold jsDiv
  rw [jsToNumber_orientation]
  cases jsToNumber x <;> rfl

lemma jsDiv_num_num (x y : ℚ) (hy : y ≠ 0) :
    jsDiv (Jsv.num x) (Jsv.num y) = Jsv.num (x / y) := by
  simp [jsDiv, jsToNumber, hy]

lemma jsGt_num_num (x y : ℚ) :
    jsGt (Jsv.num x) (Jsv.num y) = decide (y < x) := by
  simp [jsGt, jsToNumber]

/-- Spec-side description of the `clientAspectRatio` value in the
`size = "original"` case, written from the spec's words (the orientation
string itself on a match, `1 / originalAspectRatio` otherwise), to be
compared with the source-side `computeClientAspect`. -/
def specClientAspectOriginal (mw mh : ℚ) (o : String) : Jsv :=
  if o = originalOrientation mw mh then Jsv.str (originalOrientation mw mh)
  else Jsv.num (1 / originalAspect mw mh)

/-- C1: in `createPin`, when `canvasOptions.size = "original"`, the
`clientAspectRatio` is the orientation string itself when the requested
orientation equals the source orientation (a non-numeric value, so the
height arithmetic produces `NaN`), and `1 / originalAspectRatio` otherwise;
the target height is the source width divided (in JavaScript arithmetic)
by this `clientAspectRatio`. -/
theorem createPin_original_size_clientAspect (mw mh : ℚ) (o : String)
    (_hw : 0 < mw) (_hh : 0 < mh) :
    computeTransform (some "original") (some o) mw mh =
      Except.ok
        { clientAspect := specClientAspectOriginal mw mh o
        , width := mw
        , height := jsDiv (Jsv.num mw) (specClientAspectOriginal mw mh o)
        , crop := croppingStrategy (some "original") (some o) mw mh
            (specClientAspectOriginal mw mh o) } ∧
    jsDiv (Jsv.num mw) (Jsv.str (originalOrientation mw mh)) = Jsv.nan := by
  refine ⟨?_, jsDiv_orientation mw mh (Jsv.num mw)⟩
  have hca := computeClientAspect_original (some o) mw mh
  unfold computeTransform
  by_cases hmatch : o = originalOrientation mw mh
  · rw [if_pos (by rw [hmatch])] at hca
    rw [hca]
    unfold specClientAspectOriginal
    rw [if_pos hmatch]
  · rw [if_neg (by simpa using hmatch)] at hca
    rw [hca]
    unfold specClientAspectOriginal
    rw [if_neg hmatch]

theorem createPin_original_size_clientAspect_witness :
    computeTransform (some "original") (some "portrait") 2 3 =
      Except.ok
        { clientAspect := specClientAspectOriginal 2 3 "portrait"
        , width := 2
        , height := jsDiv (Jsv.num 2) (specClientAspectOriginal 2 3 "portrait")
        , crop := croppingStrategy (some "original") (some "portrait") 2 3
            (specClientAspectOriginal 2 3 "portrait") } ∧
    jsDiv (Jsv.num 2) (Jsv.str (originalOrientation 2 3)) = Jsv.nan :=
  createPin_original_size_clientAspect 2 3 "portrait"
    (by norm_num) (by norm_num)

/-- C2: `createPin` selects the pad-resize cropping mode exactly when either
an explicit `W:H` size is requested and the source aspect ratio strictly
exceeds `W / H`, or the size is `"original"`, the source is landscape
(width ≥ height) and the requested orientation is `"portrait"`; otherwise
the cropping directive is the empty string. -/
theorem createPin_croppingStrategy_characterisation
    (mw mh W H : ℚ) (s o sW sH o2 : String) (car : Jsv)
    (hH : 0 < H) (hs : s ≠ "original")
    (hsplit : jsSplit s ':' = [sW, sH])
    (hW : jsToNumber (Jsv.str sW) = some W)
    (hHn : jsToNumber (Jsv.str sH) = some H) :
    computeClientAspect (some s) (some o) mw mh =
      Except.ok (Jsv.num (W / H)) ∧
    (Except.map TransformResult.crop (computeTransform (some s) (some o) mw mh)
      = Except.ok (croppingStrategy (some s) (some o) mw mh
          (Jsv.num (W / H)))) ∧
    (croppingStrategy (some s) (some o) mw mh (Jsv.num (W / H)) =
        ",cm-pad_resize" ↔ W / H < mw / mh) ∧
    (croppingStrategy (some s) (some o) mw mh (Jsv.num (W / H)) = "" ↔
        ¬ W / H < mw / mh) ∧
    (Except.map TransformResult.crop
        (computeTransform (some "original") (some o2) mw mh)
      = Except.ok (croppingStrategy (some "original") (some o2) mw mh car)) ∧
    (croppingStrategy (some "original") (some o2) mw mh car =
        ",cm-pad_resize" ↔ (mh ≤ mw ∧ o2 = "portrait")) ∧
    (croppingStrategy (some "original") (some o2) mw mh car = "" ↔
        ¬ (mh ≤ mw ∧ o2 = "portrait")) := by
  have hca : computeClientAspect (some s) (some o) mw mh =
      Except.ok (Jsv.num (W / H)) := by
    have h := computeClientAspect_explicit s hs (some o) mw mh
    rw [hsplit] at h
    simp only [List.getElem?_cons_zero, List.getElem?_cons_succ, optStrToJsv]
      at h
    rw [show jsDiv (Jsv.str sW) (Jsv.str sH) = Jsv.num (W / H) by
      unfold jsDiv
      rw [hW, hHn]
      simp [ne_of_gt hH]] at h
    exact h
  have horig : ∀ car2 car3 : Jsv,
      croppingStrategy (some "original") (some o2) mw mh car2 =
      croppingStrategy (some "original") (some o2) mw mh car3 := by
    intro car2 car3
    rw [croppingStrategy_original, croppingStrategy_original]
  have hiffs : ∀ car2 : Jsv,
      (croppingStrategy (some "original") (some o2) mw mh car2 =
        ",cm-pad_resize" ↔ (mh ≤ mw ∧ o2 = "portrait")) ∧
      (croppingStrategy (some "original") (some o2) mw mh car2 = "" ↔
        ¬ (mh ≤ mw ∧ o2 = "portrait")) := by
    intro car2
    rw [croppingStrategy_original]
    unfold originalOrientation
    by_cases hdim : mw < mh
    · constructor
      · simp [hdim, not_le.mpr hdim]
      · simp [hdim, not_le.mpr hdim]
    · by_cases ho : o2 = "portrait" <;>
        constructor <;> simp [hdim, ho, not_lt.mp hdim]
  have hexpiff :
      (croppingStrategy (some s) (some o) mw mh (Jsv.num (W / H)) =
        ",cm-pad_resize" ↔ W / H < mw / mh) ∧
      (croppingStrategy (some s) (some o) mw mh (Jsv.num (W / H)) = "" ↔
        ¬ W / H < mw / mh) := by
    rw [croppingStrategy_explicit s hs, jsGt_num_num]
    unfold originalAspect
    by_cases hlt : W / H < mw / mh
    · constructor <;> simp [hlt]
    · constructor <;> simp [hlt]
  refine ⟨hca, ?_, hexpiff.1, hexpiff.2, ?_, (hiffs car).1, (hiffs car).2⟩
  · unfold computeTransform
    rw [hca]
    rfl
  · unfold computeTransform
    rw [computeClientAspect_original (some o2) mw mh]
    by_cases hmatch : some o2 = some (originalOrientation mw mh)
    · rw [if_pos hmatch]
      simp only [Except.map]
      rw [horig _ car]
    · rw [if_neg hmatch]
      simp only [Except.map]
      rw [horig _ car]

theorem createPin_croppingStrategy_characterisation_witness :
    computeClientAspect (some "1:2") (some "landscape") 3 2 =
      Except.ok (Jsv.num ((1 : ℚ) / 2)) ∧
    (Except.map TransformResult.crop
        (computeTransform (some "1:2") (some "landscape") 3 2)
      = Except.ok (croppingStrategy (some "1:2") (some "landscape") 3 2
          (Jsv.num ((1 : ℚ) / 2)))) ∧
    (croppingStrategy (some "1:2") (some "landscape") 3 2
        (Jsv.num ((1 : ℚ) / 2)) = ",cm-pad_resize" ↔
      (1 : ℚ) / 2 < 3 / 2) ∧
    (croppingStrategy (some "1:2") (some "landscape") 3 2
        (Jsv.num ((1 : ℚ) / 2)) = "" ↔ ¬ (1 : ℚ) / 2 < 3 / 2) ∧
    (Except.map TransformResult.crop
        (computeTransform (some "original") (some "portrait") 3 2)
      = Except.ok (croppingStrategy (some "original") (some "portrait") 3 2
          Jsv.nan)) ∧
    (croppingStrategy (some "original") (some "portrait") 3 2 Jsv.nan =
        ",cm-pad_resize" ↔ ((2 : ℚ) ≤ 3 ∧ "portrait" = "portrait")) ∧
    (croppingStrategy (some "original") (some "portrait") 3 2 Jsv.nan = "" ↔
        ¬ ((2 : ℚ) ≤ 3 ∧ "portrait" = "portrait")) :=
  createPin_croppingStrategy_characterisation 3 2 1 2 "1:2" "landscape"
    "1" "2" "portrait" Jsv.nan (by norm_num) (by decide) (by decide)
    (by decide) (by decide)

/-- A canvas-options object after `JSON.parse`; every property may be
absent (`undefined`). -/
structure CanvasOptions where
  size : Option String
  orientation : Option String
  backgroundColor : Option String
  canvasHeight : Option ℚ
deriving DecidableEq, Repr

/-- A text-options object after `JSON.parse`; every property may be
absent (`undefined`). -/
structure TextOptions where
  text : Option String
  leftPos : Option ℚ
  topPos : Option ℚ
  fontSize : Option ℚ
  color : Option String
deriving DecidableEq, Repr

/-- The request body of `POST /pins` as `createPin` reads it, with the two
JSON option fields already parsed (`none` models an absent field, whose
parse `JSON.parse(x || '\x7b\x7d')` yields an empty object). -/
structure CreatePinRequest where
  title : Option String
  description : Option String
  link : Option String
  board : Option String
  tags : Option String
  textOptions : Option TextOptions
  canvasOptions : Option CanvasOptions
  newBoard : Option String
deriving DecidableEq, Repr

/-- JavaScript truthiness of an optional string: `undefined` and the empty
string are falsy. -/
def jsTruthyStr : Option String → Bool
  | none => false
  | some s => !s.isEmpty

/-- Observable outcome of one `createPin` request: the HTTP status it
responds with, and which side effects happened (ImageKit upload call,
`Board.create`, `Pin.create`). -/
structure CreatePinOutcome where
  status : ℕ
  uploadCalled : Bool
  boardCreated : Bool
  pinCreated : Bool
deriving DecidableEq, Repr

/-- The `createPin` controller: parse the option fields (absent ones give
empty objects), run the transform arithmetic (whose `TypeError`s the outer
`catch` turns into a 500 before any side effect), build the transformation
string (throwing if `backgroundColor`, or `color` with text present, is
`undefined`), then upload and persist.  `mw`/`mh` are the sharp metadata of
the uploaded image and `uploadOk` models the ImageKit promise outcome. -/
def createPin (req : CreatePinRequest) (mw mh : ℚ) (uploadOk : Bool) :
    CreatePinOutcome :=
  let canvas := req.canvasOptions.getD
    { size := none, orientation := none, backgroundColor := none
    , canvasHeight := none }
  let textOpts := req.textOptions.getD
    { text := none, leftPos := none, topPos := none, fontSize := none
    , color := none }
  match computeTransform canvas.size canvas.orientation mw mh with
  | Except.error _ =>
      { status := 500, uploadCalled := false, boardCreated := false
      , pinCreated := false }
  | Except.ok _ =>
      match canvas.backgroundColor with
      | none =>
          { status := 500, uploadCalled := false, boardCreated := false
          , pinCreated := false }
      | some _ =>
          if jsTruthyStr textOpts.text = true ∧ textOpts.color = none then
            { status := 500, uploadCalled := false, boardCreated := false
            , pinCreated := false }
          else if uploadOk then
            { status := 201, uploadCalled := true
            , boardCreated := jsTruthyStr req.newBoard, pinCreated := true }
          else
            { status := 500, uploadCalled := true, boardCreated := false
            , pinCreated := false }

/-- C8: a `createPin` request whose `canvasOptions` is absent, or parses to
an object without a `size` property, throws while computing the client
aspect ratio (`undefined` is not `"original"`, so `.split` is called on
`undefined`); the outer catch responds 500 and no upload, board creation or
pin creation happens. -/
theorem createPin_missing_canvasOptions_500 (req : CreatePinRequest)
    (mw mh : ℚ) (uploadOk : Bool)
    (hmissing : req.canvasOptions = none ∨
      ∃ c, req.canvasOptions = some c ∧ c.size = none) :
    computeClientAspect
        ((req.canvasOptions.getD
          { size := none, orientation := none, backgroundColor := none
          , canvasHeight := none }).size)
        ((req.canvasOptions.getD
          { size := none, orientation := none, backgroundColor := none
          , canvasHeight := none }).orientation) mw mh =
      Except.error JsError.typeError ∧
    createPin req mw mh uploadOk =
      { status := 500, uploadCalled := false, boardCreated := false
      , pinCreated := false } := by
  have hsize : (req.canvasOptions.getD
      { size := none, orientation := none, backgroundColor := none
      , canvasHeight := none }).size = none := by
    rcases hmissing with h | ⟨c, hc, hcs⟩
    · rw [h]; rfl
    · rw [hc]
      simpa using hcs
  have herr : computeClientAspect
      ((req.canvasOptions.getD
        { size := none, orientation := none, backgroundColor := none
        , canvasHeight := none }).size)
      ((req.canvasOptions.getD
        { size := none, orientation := none, backgroundColor := none
        , canvasHeight := none }).orientation) mw mh =
      Except.error JsError.typeError := by
    rw [hsize]
    exact computeClientAspect_undefined _ mw mh
  refine ⟨herr, ?_⟩
  simp only [createPin, computeTransform]
  rw [herr]

theorem createPin_missing_canvasOptions_500_witness :
    computeClientAspect none none 3 2 = Except.error JsError.typeError ∧
    createPin
      { title := some "t", description := some "d", link := none
      , board := none, tags := none, textOptions := none
      , canvasOptions := none, newBoard := none } 3 2 true =
      { status := 500, uploadCalled := false, boardCreated := false
      , pinCreated := false } :=
  createPin_missing_canvasOptions_500
    { title := some "t", description := some "d", link := none
    , board := none, tags := none, textOptions := none
    , canvasOptions := none, newBoard := none } 3 2 true (Or.inl rfl)

/-- `Number(cursor) || 0` from `getPins`: a missing or non-numeric cursor
falls back to page 0. -/
def jsNumberOr0 : Option String → ℕ
  | none => 0
  | some s => (jsStringToNat s).getD 0

/-- Model of MongoDB `.skip(n).limit(k)` applied to the (ordered) list of
documents matching the query filter. -/
def mongoSkipLimit (skip limit : ℕ) (docs : List ℕ) : List ℕ :=
  (docs.drop skip).take limit

/-- Response of `getPins`: the returned page of pin documents (modelled by
their ids) and the `nextCursor` field (`none` models JSON `null`). -/
structure GetPinsResponse where
  pins : List ℕ
  nextCursor : Option ℕ
  status : ℕ
deriving DecidableEq, Repr

/-- The `getPins` controller on the list of documents matching its filter:
page index `Number(cursor) || 0`, fixed limit 21, and
`nextCursor = pageNumber + 1` exactly when the page is full. -/
def getPins (matching : List ℕ) (cursor : Option String) : GetPinsResponse :=
  let pageNumber := jsNumberOr0 cursor
  let limit := 21
  let pins := mongoSkipLimit (pageNumber * limit) limit matching
  { pins := pins
  , nextCursor := if pins.length = limit then some (pageNumber + 1) else none
  , status := 200 }

/-- C3: every `getPins` page is obtained by skipping `cursor * 21` matching
documents and taking at most 21; a missing or non-numeric cursor is treated
as page 0; `nextCursor` is `cursor + 1` exactly when the page holds exactly
21 results and `null` otherwise. -/
theorem getPins_pagination (matching : List ℕ) (cursor : Option String)
    (s : String) (hs : jsStringToNat s = none) :
    (getPins matching cursor).pins =
      (matching.drop (jsNumberOr0 cursor * 21)).take 21 ∧
    (getPins matching cursor).pins.length ≤ 21 ∧
    ((getPins matching cursor).nextCursor = some (jsNumberOr0 cursor + 1) ↔
      (getPins matching cursor).pins.length = 21) ∧
    ((getPins matching cursor).nextCursor = none ↔
      ¬ (getPins matching cursor).pins.length = 21) ∧
    (getPins matching cursor).status = 200 ∧
    jsNumberOr0 none = 0 ∧
    jsNumberOr0 (some s) = 0 := by
  have hget : getPins matching cursor =
      { pins := (matching.drop (jsNumberOr0 cursor * 21)).take 21
      , nextCursor :=
          if ((matching.drop (jsNumberOr0 cursor * 21)).take 21).length = 21
          then some (jsNumberOr0 cursor + 1) else none
      , status := 200 } := rfl
  rw [hget]
  refine ⟨rfl, List.length_take_le 21 _, ?_, ?_, rfl, rfl, ?_⟩
  · by_cases hlen :
        ((matching.drop (jsNumberOr0 cursor * 21)).take 21).length = 21
    · simp [hlen]
    · simp [hlen]
  · by_cases hlen :
        ((matching.drop (jsNumberOr0 cursor * 21)).take 21).length = 21
    · simp [hlen]
    · simp [hlen]
  · simp [jsNumberOr0, hs]

theorem getPins_pagination_witness :
    (getPins (List.range 25) (some "x")).pins =
      ((List.range 25).drop (jsNumberOr0 (some "x") * 21)).take 21 ∧
    (getPins (List.range 25) (some "x")).pins.length ≤ 21 ∧
    ((getPins (List.range 25) (some "x")).nextCursor =
        some (jsNumberOr0 (some "x") + 1) ↔
      (getPins (List.range 25) (some "x")).pins.length = 21) ∧
    ((getPins (List.range 25) (some "x")).nextCursor = none ↔
      ¬ (getPins (List.range 25) (some "x")).pins.length = 21) ∧
    (getPins (List.range 25) (some "x")).status = 200 ∧
    jsNumberOr0 none = 0 ∧
    jsNumberOr0 (some "x") = 0 :=
  getPins_pagination (List.range 25) (some "x") "x" (by decide)

/-- State of the Like and Save collections: each document is a
`(user, pin)` pair; duplicates are possible because no uniqueness
constraint exists. -/
structure InteractState where
  likes : List (ℕ × ℕ)
  saves : List (ℕ × ℕ)
deriving DecidableEq, Repr

/-- MongoDB `deleteOne` on a pair-keyed collection: remove the first
document equal to `x`, leave the rest. -/
def eraseFirstDoc : List (ℕ × ℕ) → (ℕ × ℕ) → List (ℕ × ℕ)
  | [], _ => []
  | d :: ds, x => if d = x then ds else d :: eraseFirstDoc ds x

/-- Number of documents in the collection equal to `x` (MongoDB places no
uniqueness constraint on these collections, so this can exceed 1). -/
def countDoc (docs : List (ℕ × ℕ)) (x : ℕ × ℕ) : ℕ :=
  docs.countP (fun d => decide (d = x))

/-- One check-then-act toggle as `interact` performs it: `findOne` on the
`(user, pin)` pair, `deleteOne` (first match) if present, `create`
(append) otherwise. -/
def toggleDoc (docs : List (ℕ × ℕ)) (x : ℕ × ℕ) : List (ℕ × ℕ) :=
  if x ∈ docs then eraseFirstDoc docs x else docs ++ [x]

/-- The `interact` controller: `type === 'like'` toggles the Like relation;
every other `type` value toggles the Save relation; on success it responds
200. -/
def interact (st : InteractState) (userId pin : ℕ) (ty : String) :
    InteractState × ℕ :=
  if ty = "like" then
    ({ st with likes := toggleDoc st.likes (userId, pin) }, 200)
  else
    ({ st with saves := toggleDoc st.saves (userId, pin) }, 200)

/-- C4: `interact` with `type = "like"` toggles the Like document for
`(user, pin)` (delete the first match if present, create otherwise); any
other `type` value toggles the Save document the same way; the other
collection is untouched and the response is 200. -/
theorem interact_toggle_semantics (st : InteractState) (u p : ℕ)
    (ty : String) (hty : ty ≠ "like") :
    (interact st u p "like").2 = 200 ∧
    (interact st u p ty).2 = 200 ∧
    (interact st u p "like").1 =
      { likes :=
          if (u, p) ∈ st.likes then eraseFirstDoc st.likes (u, p)
          else st.likes ++ [(u, p)]
      , saves := st.saves } ∧
    (interact st u p ty).1 =
      { likes := st.likes
      , saves :=
          if (u, p) ∈ st.saves then eraseFirstDoc st.saves (u, p)
          else st.saves ++ [(u, p)] } := by
  refine ⟨rfl, ?_, rfl, ?_⟩
  · unfold interact
    rw [if_neg hty]
  · unfold interact
    rw [if_neg hty]
    rfl

theorem interact_toggle_semantics_witness :
    (interact { likes := [(1, 2)], saves := [] } 1 2 "like").2 = 200 ∧
    (interact { likes := [(1, 2)], saves := [] } 1 2 "save").2 = 200 ∧
    (interact { likes := [(1, 2)], saves := [] } 1 2 "like").1 =
      { likes :=
          if (1, 2) ∈ [(1, 2)] then eraseFirstDoc [(1, 2)] (1, 2)
          else [(1, 2)] ++ [(1, 2)]
      , saves := [] } ∧
    (interact { likes := [(1, 2)], saves := [] } 1 2 "save").1 =
      { likes := [(1, 2)]
      , saves :=
          if ((1 : ℕ), (2 : ℕ)) ∈ ([] : List (ℕ × ℕ)) then
            eraseFirstDoc [] (1, 2)
          else [] ++ [(1, 2)] } :=
  interact_toggle_semantics { likes := [(1, 2)], saves := [] } 1 2 "save"
    (by decide)

/-- The `followUser` controller (user.controller.js variant with follows):
look the target user up by username (404 when absent), then toggle the
`(follower, following)` Follow document — `Follow.exists`, then
`deleteOne` or `create`.  Users are modelled as `(id, username)` pairs and
Follow documents as `(follower, following)` pairs. -/
def followUser (users : List (ℕ × String)) (follows : List (ℕ × ℕ))
    (followerId : ℕ) (username : String) : List (ℕ × ℕ) × ℕ :=
  match users.find? (fun w => w.2 = username) with
  | none => (follows, 404)
  | some target => (toggleDoc follows (followerId, target.1), 200)

/-- `Follow.countDocuments with following = uid` from `getUser`. -/
def followerCount (follows : List (ℕ × ℕ)) (uid : ℕ) : ℕ :=
  follows.countP (fun d => decide (d.2 = uid))

/-- `Follow.countDocuments with follower = uid` from `getUser`. -/
def followingCount (follows : List (ℕ × ℕ)) (uid : ℕ) : ℕ :=
  follows.countP (fun d => decide (d.1 = uid))

lemma countDoc_pos_of_mem (l : List (ℕ × ℕ)) (x : ℕ × ℕ) (h : x ∈ l) :
    1 ≤ countDoc l x := by
  have : 0 < countDoc l x := by
    rw [countDoc, List.countP_pos_iff]
    exact ⟨x, h, by simp⟩
  omega

lemma not_mem_of_countDoc_eq_zero (l : List (ℕ × ℕ)) (x : ℕ × ℕ)
    (h : countDoc l x = 0) : x ∉ l := by
  intro hmem
  have := countDoc_pos_of_mem l x hmem
  omega

lemma perm_cons_eraseFirstDoc (l : List (ℕ × ℕ)) (x : ℕ × ℕ) (h : x ∈ l) :
    l.Perm (x :: eraseFirstDoc l x) := by
  induction l with
  | nil => cases h
  | cons d ds ih =>
      by_cases hd : d = x
      · subst hd
        rw [eraseFirstDoc, if_pos rfl]
      · have hx : x ∈ ds := by
          cases h with
          | head => exact absurd rfl hd
          | tail _ h2 => exact h2
        rw [eraseFirstDoc, if_neg hd]
        exact (List.Perm.cons d (ih hx)).trans
          (List.Perm.swap x d (eraseFirstDoc ds x))

lemma countDoc_eraseFirstDoc (l : List (ℕ × ℕ)) (x : ℕ × ℕ) (h : x ∈ l) :
    countDoc (eraseFirstDoc l x) x = countDoc l x - 1 := by
  have hperm := perm_cons_eraseFirstDoc l x h
  have := hperm.countP_eq (fun d => decide (d = x))
  rw [countDoc, countDoc, this, List.countP_cons]
  simp

lemma eraseFirstDoc_append_not_mem (l : List (ℕ × ℕ)) (x : ℕ × ℕ)
    (h : x ∉ l) : eraseFirstDoc (l ++ [x]) x = l := by
  induction l with
  | nil => simp [eraseFirstDoc]
  | cons d ds ih =>
      have hd : ¬ d = x := fun he => h (he ▸ List.mem_cons_self d ds)
      have hds : x ∉ ds := fun hm => h (List.mem_cons_of_mem d hm)
      rw [List.cons_append, eraseFirstDoc, if_neg hd, ih hds]

lemma toggleDoc_twice_perm (l : List (ℕ × ℕ)) (x : ℕ × ℕ)
    (h : countDoc l x ≤ 1) : (toggleDoc (toggleDoc l x) x).Perm l := by
  by_cases hmem : x ∈ l
  · have h1 : countDoc l x = 1 :=
      le_antisymm h (countDoc_pos_of_mem l x hmem)
    have he : countDoc (eraseFirstDoc l x) x = 0 := by
      rw [countDoc_eraseFirstDoc l x hmem, h1]
    have hnot : x ∉ eraseFirstDoc l x :=
      not_mem_of_countDoc_eq_zero _ x he
    have hinner : toggleDoc l x = eraseFirstDoc l x := by
      rw [toggleDoc, if_pos hmem]
    rw [hinner, toggleDoc, if_neg hnot]
    exact (List.perm_append_singleton x _).trans
      (perm_cons_eraseFirstDoc l x hmem).symm
  · have hinner : toggleDoc l x = l ++ [x] := by
      rw [toggleDoc, if_neg hmem]
    rw [hinner, toggleDoc, if_pos (by simp : x ∈ l ++ [x]),
      eraseFirstDoc_append_not_mem l x hmem]

/-- C5 counterexample: from a starting state holding two duplicate
`Like(0, 0)` documents (reachable because the toggle is check-then-act with
no uniqueness constraint), two sequential like-toggles delete one document
each, so the original presence of the Like document is NOT restored. -/
theorem like_toggle_twice_not_presence_preserving :
    ¬ (((0, 0) ∈
        (interact
          (interact { likes := [(0, 0), (0, 0)], saves := [] } 0 0 "like").1
          0 0 "like").1.likes) ↔
      (0, 0) ∈ ({ likes := [(0, 0), (0, 0)], saves := [] } :
        InteractState).likes) := by decide

/-- C5 (amended): provided the starting state holds at most one matching
document, two sequential like-toggles restore the original presence of the
`Like(u, p)` document, and two sequential follow-toggles restore the
original presence of the Follow document and leave every user's
follower/following counts unchanged from baseline. -/
theorem toggle_twice_restores_presence (st : InteractState) (u p : ℕ)
    (users : List (ℕ × String)) (follows : List (ℕ × ℕ))
    (fid : ℕ) (uname : String) (target : ℕ × String) (x : ℕ)
    (hlike : countDoc st.likes (u, p) ≤ 1)
    (hfind : users.find? (fun w => w.2 = uname) = some target)
    (hfol : countDoc follows (fid, target.1) ≤ 1) :
    ((u, p) ∈ (interact (interact st u p "like").1 u p "like").1.likes ↔
      (u, p) ∈ st.likes) ∧
    ((fid, target.1) ∈
        (followUser users (followUser users follows fid uname).1
          fid uname).1 ↔
      (fid, target.1) ∈ follows) ∧
    followerCount
        (followUser users (followUser users follows fid uname).1
          fid uname).1 x =
      followerCount follows x ∧
    followingCount
        (followUser users (followUser users follows fid uname).1
          fid uname).1 x =
      followingCount follows x := by
  have hlikes :
      (interact (interact st u p "like").1 u p "like").1.likes =
        toggleDoc (toggleDoc st.likes (u, p)) (u, p) := by
    unfold interact
    rw [if_pos rfl, if_pos rfl]
  have hfU : followUser users follows fid uname =
      (toggleDoc follows (fid, target.1), 200) := by
    unfold followUser
    rw [hfind]
  have hfU2 :
      (followUser users (followUser users follows fid uname).1
        fid uname).1 =
      toggleDoc (toggleDoc follows (fid, target.1)) (fid, target.1) := by
    rw [hfU]
    unfold followUser
    rw [hfind]
  have hpermL := toggleDoc_twice_perm st.likes (u, p) hlike
  have hpermF := toggleDoc_twice_perm follows (fid, target.1) hfol
  refine ⟨?_, ?_, ?_, ?_⟩
  · rw [hlikes]
    exact hpermL.mem_iff
  · rw [hfU2]
    exact hpermF.mem_iff
  · rw [hfU2]
    exact hpermF.countP_eq (fun d => decide (d.2 = x))
  · rw [hfU2]
    exact hpermF.countP_eq (fun d => decide (d.1 = x))

theorem toggle_twice_restores_presence_witness :
    (((0 : ℕ), (3 : ℕ)) ∈
        (interact (interact { likes := [], saves := [] } 0 3 "like").1
          0 3 "like").1.likes ↔
      ((0 : ℕ), (3 : ℕ)) ∈ ([] : List (ℕ × ℕ))) ∧
    (((7 : ℕ), (5 : ℕ)) ∈
        (followUser [(5, "bob")]
          (followUser [(5, "bob")] [] 7 "bob").1 7 "bob").1 ↔
      ((7 : ℕ), (5 : ℕ)) ∈ ([] : List (ℕ × ℕ))) ∧
    followerCount
        (followUser [(5, "bob")]
          (followUser [(5, "bob")] [] 7 "bob").1 7 "bob").1 5 =
      followerCount [] 5 ∧
    followingCount
        (followUser [(5, "bob")]
          (followUser [(5, "bob")] [] 7 "bob").1 7 "bob").1 5 =
      followingCount [] 5 :=
  toggle_twice_restores_presence { likes := [], saves := [] } 0 3
    [(5, "bob")] [] 7 "bob" (5, "bob") 5 (by decide) (by decide) (by decide)

/-- A stored User document (user.model.js): identifier plus the fields
`registerUser` persists; `hashedPassword` holds the bcrypt hash. -/
structure UserDoc where
  _id : ℕ
  username : String
  displayName : String
  email : String
  hashedPassword : String
  img : Option String
deriving DecidableEq, Repr

/-- Projection `user.toObject()` minus the `hashedPassword` field, as both
auth controllers build their response bodies; the type has no password
field at all. -/
structure PublicUser where
  _id : ℕ
  username : String
  displayName : String
  email : String
  img : Option String
deriving DecidableEq, Repr

/-- Drop the `hashedPassword` field from a user document
(the rest-destructuring `const (hashedPassword, ...details) = user`). -/
def toPublic (u : UserDoc) : PublicUser :=
  { _id := u._id, username := u.username, displayName := u.displayName
  , email := u.email, img := u.img }

/-- The string fields of a public-user response body. -/
def publicStrings (p : PublicUser) : List String :=
  [p.username, p.displayName, p.email] ++ p.img.toList

/-- Result of an auth controller: an error response (status and message
body) or a success response carrying the sanitised user. -/
inductive AuthResult where
  | err (status : ℕ) (message : String)
  | ok (status : ℕ) (user : PublicUser)
deriving DecidableEq, Repr

/-- The `$or [ email = login, username = login ]` matcher of `loginUser`
(user.controller.js). -/
def loginMatcher (login : String) (u : UserDoc) : Bool :=
  u.email = login ∨ u.username = login

/-- The `loginUser` controller: find a user by email-or-username, 401 with
the generic message when none matches, 401 with the same generic message
when `bcrypt.compare` rejects the password, 200 with the sanitised user
otherwise.  `compare` is the bcrypt oracle. -/
def loginUser (compare : String → String → Bool) (db : List UserDoc)
    (login password : String) : AuthResult :=
  match db.find? (loginMatcher login) with
  | none => AuthResult.err 401 "Credenciales incorrectas"
  | some u =>
      if compare password u.hashedPassword then
        AuthResult.ok 200 (toPublic u)
      else
        AuthResult.err 401 "Credenciales incorrectas"

/-- The `registerUser` controller: hash the password with the bcrypt
oracle, create the User document, respond 201 with the document minus the
password hash.  Returns (stored document, status, response body). -/
def registerUser (hash : String → String) (username displayName email
    password : String) (newId : ℕ) : UserDoc × ℕ × PublicUser :=
  let user : UserDoc :=
    { _id := newId, username := username, displayName := displayName
    , email := email, hashedPassword := hash password, img := none }
  (user, 201, toPublic user)

/-- C6: `loginUser` responds 401 with the identical generic message both
when no user matches the identifier and when the password comparison
fails, and responds 200 with the user details on a correct login. -/
theorem loginUser_responses (compare : String → String → Bool)
    (db : List UserDoc) (login0 pw0 login1 pw1 login2 pw2 : String)
    (u1 u2 : UserDoc)
    (h0 : db.find? (loginMatcher login0) = none)
    (h1 : db.find? (loginMatcher login1) = some u1)
    (hbad : compare pw1 u1.hashedPassword = false)
    (h2 : db.find? (loginMatcher login2) = some u2)
    (hgood : compare pw2 u2.hashedPassword = true) :
    loginUser compare db login0 pw0 =
      AuthResult.err 401 "Credenciales incorrectas" ∧
    loginUser compare db login1 pw1 =
      AuthResult.err 401 "Credenciales incorrectas" ∧
    loginUser compare db login2 pw2 = AuthResult.ok 200 (toPublic u2) := by
  refine ⟨?_, ?_, ?_⟩
  · unfold loginUser
    rw [h0]
  · unfold loginUser
    rw [h1]
    dsimp only
    rw [hbad]
    rfl
  · unfold loginUser
    rw [h2]
    dsimp only
    rw [hgood]
    rfl

theorem loginUser_responses_witness :
    loginUser (fun pw hs => hs = String.append "bc-" pw)
        [{ _id := 0, username := "alice", displayName := "Alice"
         , email := "a@x", hashedPassword := "bc-pw1", img := none }]
        "nobody" "pw" =
      AuthResult.err 401 "Credenciales incorrectas" ∧
    loginUser (fun pw hs => hs = String.append "bc-" pw)
        [{ _id := 0, username := "alice", displayName := "Alice"
         , email := "a@x", hashedPassword := "bc-pw1", img := none }]
        "alice" "wrong" =
      AuthResult.err 401 "Credenciales incorrectas" ∧
    loginUser (fun pw hs => hs = String.append "bc-" pw)
        [{ _id := 0, username := "alice", displayName := "Alice"
         , email := "a@x", hashedPassword := "bc-pw1", img := none }]
        "alice" "pw1" =
      AuthResult.ok 200 (toPublic
        { _id := 0, username := "alice", displayName := "Alice"
        , email := "a@x", hashedPassword := "bc-pw1", img := none }) :=
  loginUser_responses (fun pw hs => hs = String.append "bc-" pw)
    [{ _id := 0, username := "alice", displayName := "Alice"
     , email := "a@x", hashedPassword := "bc-pw1", img := none }]
    "nobody" "pw" "alice" "wrong" "alice" "pw1"
    { _id := 0, username := "alice", displayName := "Alice"
    , email := "a@x", hashedPassword := "bc-pw1", img := none }
    { _id := 0, username := "alice", displayName := "Alice"
    , email := "a@x", hashedPassword := "bc-pw1", img := none }
    (by decide) (by decide) (by decide) (by decide) (by decide)

/-- C7: `registerUser` stores only the bcrypt hash of the submitted
password (never the plaintext, whenever the hash differs from it), and the
201 response body is the stored user minus the `hashedPassword` field, so
the hash appears in no response field (unless a submitted profile field
already equals it). -/
theorem registerUser_password_handling (hash : String → String)
    (username displayName email password : String) (newId : ℕ)
    (hneq : hash password ≠ password)
    (hnotfield : hash password ∉ [username, displayName, email]) :
    (registerUser hash username displayName email password
        newId).1.hashedPassword = hash password ∧
    (registerUser hash username displayName email password
        newId).1.hashedPassword ≠ password ∧
    (registerUser hash username displayName email password newId).2.1 =
      201 ∧
    (registerUser hash username displayName email password newId).2.2 =
      toPublic (registerUser hash username displayName email password
        newId).1 ∧
    hash password ∉ publicStrings
      (registerUser hash username displayName email password newId).2.2 := by
  refine ⟨rfl, hneq, rfl, rfl, ?_⟩
  intro hmem
  simp only [registerUser, toPublic, publicStrings, Option.toList] at hmem
  simp only [List.append_nil] at hmem
  exact hnotfield hmem

theorem registerUser_password_handling_witness :
    (registerUser (fun pw => String.append "bc-" pw) "alice" "Alice" "a@x"
        "pw1" 0).1.hashedPassword =
      (fun pw => String.append "bc-" pw) "pw1" ∧
    (registerUser (fun pw => String.append "bc-" pw) "alice" "Alice" "a@x"
        "pw1" 0).1.hashedPassword ≠ "pw1" ∧
    (registerUser (fun pw => String.append "bc-" pw) "alice" "Alice" "a@x"
        "pw1" 0).2.1 = 201 ∧
    (registerUser (fun pw => String.append "bc-" pw) "alice" "Alice" "a@x"
        "pw1" 0).2.2 =
      toPublic (registerUser (fun pw => String.append "bc-" pw) "alice"
        "Alice" "a@x" "pw1" 0).1 ∧
    (fun pw => String.append "bc-" pw) "pw1" ∉ publicStrings
      (registerUser (fun pw => String.append "bc-" pw) "alice" "Alice"
        "a@x" "pw1" 0).2.2 :=
  registerUser_password_handling (fun pw => String.append "bc-" pw)
    "alice" "Alice" "a@x" "pw1" 0 (by decide) (by decide)

/-- Body of a successful `getUser` profile response. -/
structure ProfileBody where
  user : PublicUser
  followerCount : ℕ
  followingCount : ℕ
  isFollowing : Bool
deriving DecidableEq, Repr

/-- Response of `getUser`: 404 with a message, or a 200 profile. -/
inductive UserResponse where
  | notFound (status : ℕ) (message : String)
  | profile (status : ℕ) (body : ProfileBody)
deriving DecidableEq, Repr

/-- The `getUser` controller (part_005): look the user up by username (404
when absent); with no token cookie respond 200 with
`isFollowing = false`; with a token, run `jwt.verify` — its callback
responds 200 with the follow state only when verification succeeds, and
RETURNS WITHOUT RESPONDING on a verification error (there is no else
branch), which the result value `none` models. -/
def getUser (users : List UserDoc) (follows : List (ℕ × ℕ))
    (username : String) (token : Option String)
    (verify : String → Option ℕ) : Option UserResponse :=
  match users.find? (fun w => w.username = username) with
  | none =>
      some (UserResponse.notFound 404
        (String.append
          "No se encontró un usuario con el nombre de usuario: " username))
  | some u =>
      match token with
      | none =>
          some (UserResponse.profile 200
            { user := toPublic u
            , followerCount := followerCount follows u._id
            , followingCount := followingCount follows u._id
            , isFollowing := false })
      | some t =>
          match verify t with
          | none => none
          | some callerId =>
              some (UserResponse.profile 200
                { user := toPublic u
                , followerCount := followerCount follows u._id
                , followingCount := followingCount follows u._id
                , isFollowing := decide ((callerId, u._id) ∈ follows) })

/-- C9: a `GET /users/:username` request for an existing user whose token
cookie fails JWT verification gets NO response at all (the verify callback
has no error branch), while the same request with no token cookie gets a
200 profile with `isFollowing = false`. -/
theorem getUser_invalid_token_no_response (users : List UserDoc)
    (follows : List (ℕ × ℕ)) (username t : String)
    (verify : String → Option ℕ) (u : UserDoc)
    (hfind : users.find? (fun w => w.username = username) = some u)
    (hverify : verify t = none) :
    getUser users follows username (some t) verify = none ∧
    getUser users follows username none verify =
      some (UserResponse.profile 200
        { user := toPublic u
        , followerCount := followerCount follows u._id
        , followingCount := followingCount follows u._id
        , isFollowing := false }) := by
  constructor
  · unfold getUser
    rw [hfind]
    dsimp only
    rw [hverify]
  · unfold getUser
    rw [hfind]

theorem getUser_invalid_token_no_response_witness :
    getUser
        [{ _id := 0, username := "alice", displayName := "Alice"
         , email := "a@x", hashedPassword := "h", img := none }]
        [] "alice" (some "badtoken") (fun _ => none) = none ∧
    getUser
        [{ _id := 0, username := "alice", displayName := "Alice"
         , email := "a@x", hashedPassword := "h", img := none }]
        [] "alice" none (fun _ => none) =
      some (UserResponse.profile 200
        { user := toPublic
            { _id := 0, username := "alice", displayName := "Alice"
            , email := "a@x", hashedPassword := "h", img := none }
        , followerCount := followerCount [] 0
        , followingCount := followingCount [] 0
        , isFollowing := false }) :=
  getUser_invalid_token_no_response
    [{ _id := 0, username := "alice", displayName := "Alice"
     , email := "a@x", hashedPassword := "h", img := none }]
    [] "alice" "badtoken" (fun _ => none)
    { _id := 0, username := "alice", displayName := "Alice"
    , email := "a@x", hashedPassword := "h", img := none }
    (by decide) rfl

/-- Body of an `interactionCheck` response. -/
structure InteractionCheckBody where
  likeCount : ℕ
  isLiked : Bool
  isSaved : Bool
deriving DecidableEq, Repr

/-- The `interactionCheck` controller: count the pin's likes; with no token
respond 200 anonymously (`isLiked = isSaved = false`); with a token, an
invalid one also responds 200 anonymously, and a valid one responds 200
with the caller's like/save state. -/
def interactionCheck (likes saves : List (ℕ × ℕ)) (pinId : ℕ)
    (token : Option String) (verify : String → Option ℕ) :
    ℕ × InteractionCheckBody :=
  let likeCount := likes.countP (fun d => decide (d.2 = pinId))
  match token with
  | none => (200, { likeCount := likeCount, isLiked := false
                  , isSaved := false })
  | some t =>
      match verify t with
      | none => (200, { likeCount := likeCount, isLiked := false
                      , isSaved := false })
      | some userId =>
          (200, { likeCount := likeCount
                , isLiked := decide ((userId, pinId) ∈ likes)
                , isSaved := decide ((userId, pinId) ∈ saves) })

/-- C10: an interaction-check request with no token cookie, or with a token
that fails verification, is answered 200 with the pin's like count and
`isLiked = isSaved = false` — an invalid token is treated exactly like an
anonymous caller and never yields a 401 or 403. -/
theorem interactionCheck_invalid_token_anonymous (likes saves :
    List (ℕ × ℕ)) (pinId : ℕ) (t : String) (verify : String → Option ℕ)
    (hverify : verify t = none) :
    interactionCheck likes saves pinId none verify =
      (200, { likeCount := likes.countP (fun d => decide (d.2 = pinId))
            , isLiked := false, isSaved := false }) ∧
    interactionCheck likes saves pinId (some t) verify =
      (200, { likeCount := likes.countP (fun d => decide (d.2 = pinId))
            , isLiked := false, isSaved := false }) := by
  constructor
  · rfl
  · unfold interactionCheck
    dsimp only
    rw [hverify]

theorem interactionCheck_invalid_token_anonymous_witness :
    interactionCheck [(4, 9)] [] 9 none (fun _ => none) =
      (200, { likeCount := [((4 : ℕ), (9 : ℕ))].countP
                (fun d => decide (d.2 = 9))
            , isLiked := false, isSaved := false }) ∧
    interactionCheck [(4, 9)] [] 9 (some "badtoken") (fun _ => none) =
      (200, { likeCount := [((4 : ℕ), (9 : ℕ))].countP
                (fun d => decide (d.2 = 9))
            , isLiked := false, isSaved := false }) :=
  interactionCheck_invalid_token_anonymous [(4, 9)] [] 9 "badtoken"
    (fun _ => none) rfl
